import Mathlib

/-!
# Verification of capstan's runtime-configuration resolution engine

Shallow embedding of the Go sources under `src/` (package `runtime`:
`part_002` = runtime.go, `part_000` = java.go, `part_001` = cmd_config.go,
`src/runtime/native.go`).

Modelling conventions:

* A Go `map[string]string` is an association list `List (String × String)`
  with unique keys; `none` models a Go nil map (Go distinguishes nil from
  empty maps, and `javaRuntime.GetBootCmd`'s `setDefaultEnv` behaves
  differently on the two: on a nil map it installs a fresh map into the
  *copied* receiver, so the additions are invisible to the registry entry,
  while on a non-nil map it writes through the shared map).
  Go's map iteration order is nondeterministic; the embedding fixes
  insertion order (the order of the association list / of the literal as
  written in the source).
* In-place mutation of the shared `Env` maps inside the cross-package
  registry (`map[string]*CmdConfig`) is modelled by explicit state
  passing: `getBootCmd` returns, besides the command text, the variant's
  own shared-env view after the call and the updated registry.
* Recursion through `base` references is not structurally decreasing
  (capstan has no cycle detection), so `getBootCmd` takes fuel; running
  out of fuel (`GoResult.nofuel`) corresponds to the unbounded recursion
  a cyclic reference causes in Go.
* A Go panic (index out of range in `inheritBootCmd`) is the distinguished
  outcome `GoResult.panic`, separate from a returned `error`
  (`GoResult.err`).
* `util.DeepCopyMap` and `util.ExcludeFromMap` are not under `src/`;
  they are modelled from the spec (see their doc comments).
* The node and python variants (`node.go`, `python.go`) are not under
  `src/` and no claim concerns them, so `Runtime` covers the two variants
  whose sources are present: native and java.
-/

namespace Capstan

/-- Association-list model of a Go `map[string]string` (keys unique). -/
abbrev EnvList := List (String × String)

/-- `CommonRuntime` (runtime.go): fields common to all runtime variants.
`Env = none` models a nil Go map. -/
structure CommonRuntime where
  Env  : Option EnvList
  Base : String
deriving Repr, DecidableEq

/-- `nativeRuntime` (native.go): embedded `CommonRuntime` plus `bootcmd`. -/
structure NativeRuntimeData where
  common  : CommonRuntime
  BootCmd : String
deriving Repr, DecidableEq

/-- `javaRuntime` (java.go): embedded `CommonRuntime` plus the java
fields.  `Classpath = none` models a nil Go slice (absent in yaml), which
`Validate` distinguishes from a present-but-empty list. -/
structure JavaRuntimeData where
  common    : CommonRuntime
  Xms       : String
  Xmx       : String
  Classpath : Option (List String)
  JvmArgs   : List String
  Main      : String
  Args      : List String
deriving Repr, DecidableEq

/-- The `Runtime` interface (runtime.go), restricted to the two concrete
variants whose sources are under `src/`. -/
inductive Runtime where
  | native : NativeRuntimeData → Runtime
  | java   : JavaRuntimeData → Runtime
deriving Repr, DecidableEq

/-- The embedded `CommonRuntime` of a variant. -/
def Runtime.common : Runtime → CommonRuntime
  | .native n => n.common
  | .java j   => j.common

/-- `GetEnv` (runtime.go): returns the variant's environment map. -/
def Runtime.GetEnv (rt : Runtime) : Option EnvList :=
  rt.common.Env

/-- Replace a variant's environment map (models in-place mutation of the
shared Go map: the caller stores the result back into the registry). -/
def Runtime.withEnv : Runtime → Option EnvList → Runtime
  | .native n, e => .native { n with common := { n.common with Env := e } }
  | .java j,   e => .java { j with common := { j.common with Env := e } }

/-- `CmdConfig` (cmd_config.go): one package's parsed `meta/run.yaml`. -/
structure CmdConfig where
  RuntimeType      : String
  ConfigSetDefault : String
  ConfigSets       : List (String × Runtime)
deriving Repr, DecidableEq

/-- The `cmdConfs map[string]*CmdConfig` argument of `GetBootCmd`;
`some none` models a key mapped to a nil pointer. -/
abbrev CmdConfs := List (String × Option CmdConfig)

/-- Outcome of a Go call: normal return value, returned `error`, runtime
panic, or fuel exhaustion (models capstan's unbounded recursion on cyclic
`base` references). -/
inductive GoResult (α : Type) where
  | ok     : α → GoResult α
  | err    : String → GoResult α
  | panic  : String → GoResult α
  | nofuel : GoResult α
deriving Repr, DecidableEq

/-! ## Environment-map operations -/

/-- Character membership in a string; embeds `strings.Contains(s, c)` for
the single-character needles `" "` and `":"` used by the source. -/
def containsChar (s : String) (c : Char) : Bool :=
  s.data.any (fun x => x = c)

/-- Go map update at an existing key (value replaced, position kept). -/
def envUpdate (l : EnvList) (k v : String) : EnvList :=
  l.map (fun p => if p.1 = k then (k, v) else p)

/-- Loop body of `CommonRuntime.ForceEnv` (runtime.go): iterates the given
map, updating only keys that already exist and appending each updated key
to the accumulator. -/
def forceEnvAux : Option EnvList → EnvList → List String → Option EnvList × List String
  | cur, [], updated => (cur, updated)
  | none, _ :: rest, updated => forceEnvAux none rest updated
  | some l, (k, v) :: rest, updated =>
    if (l.lookup k).isSome then
      forceEnvAux (some (envUpdate l k v)) rest (updated ++ [k])
    else
      forceEnvAux (some l) rest updated

/-- `CommonRuntime.ForceEnv` (runtime.go), acting on the `Env` map (the
in-place mutation is modelled by returning the new map).  Note the
accumulator is seeded with `make([]string, 15)` — fifteen empty strings —
exactly as in the source. -/
def ForceEnv (cur : Option EnvList) (env : Option EnvList) :
    Option EnvList × List String :=
  forceEnvAux cur (env.getD []) (List.replicate 15 "")

/-- Loop body of `CommonRuntime.setDefaultEnv` (runtime.go): adds only
keys with a non-empty value that are not present yet.  (The `updated`
list it also builds is discarded by its only caller, `javaRuntime.GetBootCmd`,
and is omitted.) -/
def setDefaultEnvAux : EnvList → EnvList → EnvList
  | cur, [] => cur
  | cur, (k, v) :: rest =>
    if v = "" then setDefaultEnvAux cur rest
    else if (cur.lookup k).isSome then setDefaultEnvAux cur rest
    else setDefaultEnvAux (cur ++ [(k, v)]) rest

/-- Modelled from the spec (source `util.DeepCopyMap` is not under
`src/`): §4.3 step 4, "Snapshot the environment mapping (deep copy)".
In this value-based embedding a deep copy is the value itself. -/
def DeepCopyMap (e : Option EnvList) : Option EnvList := e

/-- Modelled from the spec (source `util.ExcludeFromMap` is not under
`src/`): §4.3 step 8, "the subset of the inheriting set's `Env` whose
keys were **not** among the keys updated". -/
def ExcludeFromMap (e : Option EnvList) (keys : List String) : Option EnvList :=
  match e with
  | none => none
  | some l => some (l.filter (fun p => !(keys.contains p.1)))

/-- `PrependEnvsPrefix` (runtime.go): prepends `--env=KEY<op>VALUE ` for
every env entry, with operator `?=` when `soft` and `=` otherwise.  (The
Go function also returns an error that is always nil; it is omitted.) -/
def PrependEnvsPrefix (cmd : String) (env : Option EnvList) (soft : Bool) : String :=
  let op := if soft then "?=" else "="
  let s := (env.getD []).foldl
    (fun acc p => acc ++ "--env=" ++ p.1 ++ op ++ p.2 ++ " ") ""
  s ++ cmd

/-! ## The cross-package registry -/

/-- Replace the runtime stored at `(pkg, cs)` in the registry (models an
in-place mutation of that entry's shared `Env` map). -/
def updateConfigSet (confs : CmdConfs) (pkg cs : String) (rt : Runtime) : CmdConfs :=
  confs.map (fun pc =>
    if pc.1 = pkg then
      (pc.1, pc.2.map (fun cfg =>
        { cfg with ConfigSets :=
            cfg.ConfigSets.map (fun p => if p.1 = cs then (p.1, rt) else p) }))
    else pc)

/-- `strings.SplitN(s, ":", 2)`: split at the first `:`, character-level. -/
def splitFirstAux : List Char → List Char → Option (List Char × List Char)
  | [], _ => none
  | c :: rest, acc =>
    if c = ':' then some (acc.reverse, rest) else splitFirstAux rest (c :: acc)

/-- `strings.SplitN(s, ":", 2)` as used by `inheritBootCmd`: one part when
`s` has no colon, two parts (before / after the first colon) otherwise. -/
def splitN2 (s : String) : List String :=
  match splitFirstAux s.data [] with
  | none => [s]
  | some (a, b) => [String.mk a, String.mk b]

/-- `concatJvmArgs` (java.go): joined jvm args, or the dummy `-Dx=y`. -/
def concatJvmArgs (args : List String) : String :=
  let res := String.intercalate " " args
  if res = "" then "-Dx=y" else res

/-! ## Boot-command generation

`getBootCmd rt confs fuel` models `rt.GetBootCmd(cmdConfs)`.  It returns
`(bootCmd, sharedEnvAfter, confs')`: the command text, the contents of
`rt`'s own shared `Env` map after the call (the registry entry holding
`rt`, if any, now carries this map), and the updated registry.  Fuel
decreases at every nested `GetBootCmd`; capstan itself recurses without
bound on cyclic references. -/

/-- `CommonRuntime.inheritBootCmd` (runtime.go), parameterised by the
recursive `GetBootCmd` call. -/
def inheritBootCmdGo
    (recur : Runtime → CmdConfs → GoResult (String × Option EnvList × CmdConfs))
    (r : CommonRuntime) (confs : CmdConfs) : GoResult (String × CmdConfs) :=
  match splitN2 r.Base with
  | [] => .panic "runtime error: index out of range"
  | [_only] => .panic "runtime error: index out of range"
  | pkgName :: configSet :: _ =>
    match confs.lookup pkgName with
    | none =>
      .err ("Failed to inherit from '" ++ pkgName ++
        "': package not included or has no meta/run.yaml")
    | some none =>
      .err ("Failed to inherit from '" ++ pkgName ++
        "': package not included or has no meta/run.yaml")
    | some (some cfg) =>
      match cfg.ConfigSets.lookup configSet with
      | none =>
        .err ("Failed to inherit '" ++ pkgName ++ ":" ++ configSet ++
          "': config_set does not exist")
      | some original =>
        let env_orig := DeepCopyMap original.GetEnv
        let pushed := ForceEnv original.GetEnv r.Env
        let original1 := original.withEnv pushed.1
        let confs1 := updateConfigSet confs pkgName configSet original1
        match recur original1 confs1 with
        | .ok (bootCmd, sharedAfter, confs2) =>
          let reverted := ForceEnv sharedAfter env_orig
          let confs3 := updateConfigSet confs2 pkgName configSet
            (original1.withEnv reverted.1)
          let env := ExcludeFromMap r.Env pushed.2
          .ok (PrependEnvsPrefix bootCmd env true, confs3)
        | .err e => .err e
        | .panic m => .panic m
        | .nofuel => .nofuel

/-- `CommonRuntime.BuildBootCmd` (runtime.go), parameterised by the
recursive `GetBootCmd` call.  Note terminal mode passes `soft := true`
to `PrependEnvsPrefix`, exactly as the source does. -/
def buildBootCmdGo
    (recur : Runtime → CmdConfs → GoResult (String × Option EnvList × CmdConfs))
    (r : CommonRuntime) (bootCmd : String) (confs : CmdConfs) :
    GoResult (String × CmdConfs) :=
  if r.Base ≠ "" then
    inheritBootCmdGo recur r confs
  else
    .ok (PrependEnvsPrefix bootCmd r.Env true, confs)

/-- `GetBootCmd` of a variant (native.go / java.go), with fuel.
For java: the receiver copy's `Base` is overwritten with
`"openjdk8-zulu-compact1:java"` and `setDefaultEnv` is applied; when the
stored `Env` was a nil map the defaults live only in a fresh local map
(the shared view stays `none`), otherwise the additions write through to
the shared map. -/
def getBootCmd (rt : Runtime) (confs : CmdConfs) :
    Nat → GoResult (String × Option EnvList × CmdConfs)
  | 0 => .nofuel
  | fuel + 1 =>
    match rt with
    | .native n =>
      match buildBootCmdGo (fun rt' confs' => getBootCmd rt' confs' fuel)
          n.common n.BootCmd confs with
      | .ok (s, confs') => .ok (s, n.common.Env, confs')
      | .err e => .err e
      | .panic m => .panic m
      | .nofuel => .nofuel
    | .java j =>
      let defaults : EnvList := [
        ("XMS", j.Xms),
        ("XMX", j.Xmx),
        ("CLASSPATH", String.intercalate ":" (j.Classpath.getD [])),
        ("JVM_ARGS", concatJvmArgs j.JvmArgs),
        ("MAIN", j.Main),
        ("ARGS", String.intercalate " " j.Args)]
      let localEnv := setDefaultEnvAux (j.common.Env.getD []) defaults
      let sharedAfter := j.common.Env.map (fun l => setDefaultEnvAux l defaults)
      let conf1 : CommonRuntime :=
        { Env := some localEnv, Base := "openjdk8-zulu-compact1:java" }
      match buildBootCmdGo (fun rt' confs' => getBootCmd rt' confs' fuel)
          conf1 "" confs with
      | .ok (s, confs') => .ok (s, sharedAfter, confs')
      | .err e => .err e
      | .panic m => .panic m
      | .nofuel => .nofuel

/-- `CommonRuntime.BuildBootCmd` with the recursive call closed over a
fuel amount for the nested `GetBootCmd`s. -/
def BuildBootCmd (r : CommonRuntime) (bootCmd : String) (confs : CmdConfs)
    (fuel : Nat) : GoResult (String × CmdConfs) :=
  buildBootCmdGo (fun rt' confs' => getBootCmd rt' confs' fuel) r bootCmd confs

/-! ## Validation -/

/-- Whether a string contains a space (`strings.Contains(s, " ")`). -/
def hasSpace (s : String) : Bool := containsChar s ' '

/-- `CommonRuntime.Validate` (runtime.go): `none` means success, `some e`
the error message.  The env loop reports the first offending entry (Go
iterates the map in nondeterministic order; the embedding takes list
order, which changes only the reported entry, not success/failure). -/
def CommonRuntime.Validate (r : CommonRuntime) (inherit : Bool) : Option String :=
  match (r.Env.getD []).find? (fun p => hasSpace p.1 || hasSpace p.2) with
  | some p =>
    some ("spaces not allowed in env key/value: '" ++ p.1 ++ "':'" ++ p.2 ++ "'")
  | none =>
    if inherit then
      if r.Base = "" then some "'base' must be provided"
      else if !(containsChar r.Base ':') then
        some "'base' must be in format <pkg_name>:<config_set>"
      else none
    else none

/-- `nativeRuntime.Validate` (native.go). -/
def nativeRuntimeValidate (n : NativeRuntimeData) : Option String :=
  if n.common.Base = "" then
    if n.BootCmd = "" then some "'bootcmd' must be provided"
    else n.common.Validate false
  else n.common.Validate true

/-- `javaRuntime.Validate` (java.go); `Classpath = none` is Go's
`conf.Classpath == nil`. -/
def javaRuntimeValidate (j : JavaRuntimeData) : Option String :=
  if j.common.Base = "" then
    if j.Main = "" then some "'main' must be provided"
    else if j.Classpath.isNone then some "'classpath' must be provided"
    else j.common.Validate false
  else j.common.Validate true

/-- `Validate` dispatched through the `Runtime` interface. -/
def Runtime.Validate : Runtime → Option String
  | .native n => nativeRuntimeValidate n
  | .java j => javaRuntimeValidate j

/-! ## Configuration-set selection -/

/-- `keysOfMap` (cmd_config.go). -/
def keysOfMap (m : List (String × Runtime)) : List String := m.map Prod.fst

/-- The `availableNames` diagnostic string of `selectConfigSetByName`:
`fmt.Sprintf("['%s']", strings.Join(keysOfMap(...), "', '"))`. -/
def availableNamesStr (m : List (String × Runtime)) : String :=
  "['" ++ String.intercalate "', '" (keysOfMap m) ++ "']"

/-- The ambiguity error of `selectConfigSetByName` (no name given, not
exactly one configuration set). -/
def ambiguousMsg (m : List (String × Runtime)) : String :=
  "Could not select which configuration set to run:\n" ++
  "Neither --runconfig <name> is provided, nor config_set_default is set in meta/run.yaml\n" ++
  "Available names: " ++ availableNamesStr m

/-- The not-found error of `selectConfigSetByName` (requested name absent). -/
def notFoundMsg (name : String) (m : List (String × Runtime)) : String :=
  "Could not select which configuration set to run:\n" ++
  "Configuration set name '" ++ name ++ "' not one of " ++ availableNamesStr m

/-- `CmdConfig.selectConfigSetByName` (cmd_config.go). -/
def selectConfigSetByName (r : CmdConfig) (name : String) : Except String Runtime :=
  if name = "" then
    match r.ConfigSets with
    | [single] => .ok single.2
    | _ => .error (ambiguousMsg r.ConfigSets)
  else
    match r.ConfigSets.lookup name with
    | none => .error (notFoundMsg name r.ConfigSets)
    | some rt => .ok rt

/-! ## Helpers for stating the claims -/

/-- Whether every key and value of an env map is space-free. -/
def envNoSpace (e : Option EnvList) : Bool :=
  (e.getD []).all (fun p => !hasSpace p.1 && !hasSpace p.2)

/-- Splits a command string at each space character (the boot-command
format of §6 is a single-line, space-separated token sequence). -/
def tokensAux : List Char → List Char → List String
  | [], acc => [String.mk acc.reverse]
  | c :: rest, acc =>
    if c = ' ' then String.mk acc.reverse :: tokensAux rest []
    else tokensAux rest (c :: acc)

/-- The space-separated tokens of a command string. -/
def tokens (s : String) : List String := tokensAux s.data []

/-- Project the updated registry out of a `getBootCmd` result. -/
def resultConfs : GoResult (String × Option EnvList × CmdConfs) → Option CmdConfs
  | .ok (_, _, confs) => some confs
  | _ => none

/-- The stored `Env` of the registry entry at `(pkg, cs)`. -/
def envAt (confs : CmdConfs) (pkg cs : String) : Option (Option EnvList) :=
  match confs.lookup pkg with
  | some (some cfg) => (cfg.ConfigSets.lookup cs).map Runtime.GetEnv
  | _ => none

/-- Whether a `GoResult` is a runtime panic. -/
def GoResult.isPanic {α : Type} : GoResult α → Bool
  | .panic _ => true
  | _ => false

/-- Well-formed `base` field: empty, or containing the `:` separator
(what `Validate` enforces). -/
def wfBase (s : String) : Bool := s == "" || containsChar s ':'

/-- A runtime whose `base` is well-formed. -/
def Runtime.wfRt (rt : Runtime) : Bool := wfBase rt.common.Base

/-- A package config whose stored runtimes all have well-formed bases. -/
def wfCfg (cfg : CmdConfig) : Bool := cfg.ConfigSets.all (fun p => p.2.wfRt)

/-- A registry whose stored runtimes all have well-formed bases. -/
def wfConfs (confs : CmdConfs) : Bool :=
  confs.all (fun p => match p.2 with | none => true | some cfg => wfCfg cfg)

set_option synthInstance.maxSize 512 in
instance : DecidableEq (GoResult (String × Option EnvList × CmdConfs)) :=
  inferInstance

/-! ## Concrete scenarios from the spec's testable properties -/

/-- Terminal native variant of the round-trip scenario:
`Env = {"A":"1","B":"2"}`, command `/bin/app`. -/
def nativeAB : NativeRuntimeData :=
  { common := { Env := some [("A","1"),("B","2")], Base := "" }, BootCmd := "/bin/app" }

/-- End-to-end scenario, base side: package `P1`, native configuration
set `run` with `bootcmd /bin/app` and `Env = {"X":"1"}`. -/
def confsP1 : CmdConfs :=
  [("P1", some { RuntimeType := "native", ConfigSetDefault := "",
                 ConfigSets := [("run", .native { common := { Env := some [("X","1")], Base := "" },
                                                  BootCmd := "/bin/app" })] })]

/-- End-to-end scenario, inheriting side: `base = "P1:run"`,
`Env = {"X":"2","Y":"5"}`. -/
def rtP2run : Runtime :=
  .native { common := { Env := some [("X","2"),("Y","5")], Base := "P1:run" }, BootCmd := "" }

/-- Inheritance-precedence scenario, base side: native `run` with
`bootcmd /cmd` and `Env = {"A":"1"}` in package `PB`. -/
def confsPB : CmdConfs :=
  [("PB", some { RuntimeType := "native", ConfigSetDefault := "",
                 ConfigSets := [("run", .native { common := { Env := some [("A","1")], Base := "" },
                                                  BootCmd := "/cmd" })] })]

/-- Inheritance-precedence scenario, inheriting side:
`Env = {"A":"9","C":"3"}`, `base = "PB:run"`. -/
def rtAC : Runtime :=
  .native { common := { Env := some [("A","9"),("C","3")], Base := "PB:run" }, BootCmd := "" }

/-- Registry entry the java runtime's hardwired base points at: package
`openjdk8-zulu-compact1` with a terminal native configuration set `java`. -/
def cfgJdk : CmdConfig :=
  { RuntimeType := "native", ConfigSetDefault := "",
    ConfigSets := [("java", .native { common := { Env := none, Base := "" },
                                      BootCmd := "java.so" })] }

/-- A package `pkgJ` holding a terminal java configuration set `run` with
a non-nil `Env = {"X":"1"}` and all java required fields set. -/
def cfgJRun : CmdConfig :=
  { RuntimeType := "java", ConfigSetDefault := "",
    ConfigSets := [("run", .java { common := { Env := some [("X","1")], Base := "" },
                                   Xms := "", Xmx := "", Classpath := some ["/"],
                                   JvmArgs := [], Main := "m", Args := [] })] }

/-- Registry with the java package and the jdk package it needs. -/
def confsJava : CmdConfs :=
  [("openjdk8-zulu-compact1", some cfgJdk), ("pkgJ", some cfgJRun)]

/-- A variant inheriting from the java configuration set `pkgJ:run`,
pushing `X = 2` into it. -/
def rtInheritJava : Runtime :=
  .native { common := { Env := some [("X","2")], Base := "pkgJ:run" }, BootCmd := "" }

/-- A package with two configuration sets and no default (selection
ambiguity scenario). -/
def cfgTwo : CmdConfig :=
  { RuntimeType := "native", ConfigSetDefault := "",
    ConfigSets := [("one", .native nativeAB), ("two", .native nativeAB)] }

/-- A terminal java configuration with all required fields set and no
base declared in its manifest (for the hardwired-base behaviour). -/
def javaSolo : JavaRuntimeData :=
  { common := { Env := some [("X","1")], Base := "" },
    Xms := "", Xmx := "", Classpath := some ["/"],
    JvmArgs := [], Main := "m", Args := [] }

end Capstan

namespace Capstan

/-! ## C1 — terminal boot command: env tokens -/

/-- C1, as stated, is false: for the terminal native variant with
`Env = {"A":"1","B":"2"}` and command `/bin/app`, `GetBootCmd` produces
the soft tokens `--env=A?=1 --env=B?=2`, not the hard tokens
`--env=A=1 --env=B=2` the claim requires (in either order). -/
theorem terminal_env_tokens_not_hard :
    getBootCmd (.native nativeAB) [] 1
      = .ok ("--env=A?=1 --env=B?=2 /bin/app", some [("A","1"),("B","2")], [])
    ∧ tokens "--env=A?=1 --env=B?=2 /bin/app"
      = ["--env=A?=1", "--env=B?=2", "/bin/app"]
    ∧ "--env=A?=1 --env=B?=2 /bin/app" ≠ "--env=A=1 --env=B=2 /bin/app"
    ∧ "--env=A?=1 --env=B?=2 /bin/app" ≠ "--env=B=2 --env=A=1 /bin/app" := by
  refine ⟨by decide, by decide, by decide, by decide⟩

/-- C1 amended: for every terminal (non-inheriting) variant,
`GetBootCmd` succeeds, leaves the registry and the variant's env
untouched, and prepends every entry of `Env` as a *soft* token
(`BuildBootCmd` passes `soft = true` to `PrependEnvsPrefix`); for
`Env = {"A":"1","B":"2"}` the result is exactly the tokens
`--env=A?=1` and `--env=B?=2` followed by the variant command. -/
theorem terminal_env_tokens_soft (n : NativeRuntimeData) (confs : CmdConfs)
    (fuel : Nat) (h : n.common.Base = "") :
    getBootCmd (.native n) confs (fuel + 1)
      = .ok (PrependEnvsPrefix n.BootCmd n.common.Env true, n.common.Env, confs)
    ∧ PrependEnvsPrefix "/bin/app" (some [("A","1"),("B","2")]) true
      = "--env=A?=1 --env=B?=2 /bin/app" := by
  constructor
  · simp [getBootCmd, buildBootCmdGo, h]
  · decide

/-- Witness for `terminal_env_tokens_soft` at the round-trip scenario. -/
theorem terminal_env_tokens_soft_witness :
    getBootCmd (.native nativeAB) [] 1
      = .ok ("--env=A?=1 --env=B?=2 /bin/app", some [("A","1"),("B","2")], []) :=
  ((terminal_env_tokens_soft nativeAB [] 0 rfl).1).trans (by decide)

/-! ## C2 — inheritance: override and new-key tokens -/

/-- C2, as stated, is false: resolving `rtP2run` (base `P1:run`,
`Env = {"X":"2","Y":"5"}`) against `confsP1` yields
`--env=Y?=5 --env=X?=2 /bin/app` — the overridden key `X` is emitted as
a *soft* token `--env=X?=2`, not the hard token `--env=X=2` the claim
requires; neither ordering of the claimed token set matches. -/
theorem inherit_override_token_not_hard :
    getBootCmd rtP2run confsP1 2
      = .ok ("--env=Y?=5 --env=X?=2 /bin/app", some [("X","2"),("Y","5")], confsP1)
    ∧ "--env=Y?=5 --env=X?=2 /bin/app" ≠ "--env=X=2 --env=Y?=5 /bin/app"
    ∧ "--env=Y?=5 --env=X?=2 /bin/app" ≠ "--env=Y?=5 --env=X=2 /bin/app" := by
  refine ⟨by decide, by decide, by decide⟩

/-- C2 amended: overridden keys are pushed into the base and emitted (by
the base's own prepend step) as soft tokens carrying the inheriting
value, new keys are appended as soft tokens, and the base's original
value appears in no token; the end-to-end scenario resolves to exactly
the tokens `--env=Y?=5` and `--env=X?=2` followed by `/bin/app`, with
the base registry entry restored, and the precedence scenario
(base `Env={"A":"1"}`, inheriting `Env={"A":"9","C":"3"}`) resolves to
exactly `--env=C?=3` and `--env=A?=9` followed by the base command. -/
theorem inherit_override_tokens_all_soft :
    getBootCmd rtP2run confsP1 2
      = .ok ("--env=Y?=5 --env=X?=2 /bin/app", some [("X","2"),("Y","5")], confsP1)
    ∧ tokens "--env=Y?=5 --env=X?=2 /bin/app"
      = ["--env=Y?=5", "--env=X?=2", "/bin/app"]
    ∧ getBootCmd rtAC confsPB 2
      = .ok ("--env=C?=3 --env=A?=9 /cmd", some [("A","9"),("C","3")], confsPB)
    ∧ tokens "--env=C?=3 --env=A?=9 /cmd"
      = ["--env=C?=3", "--env=A?=9", "/cmd"] := by
  refine ⟨by decide, by decide, by decide, by decide⟩

/-! ## C3 — the push into the base is not fully reverted for a java base -/

/-- C3 fails on the code (code bug): inheriting from the java
configuration set `pkgJ:run` (stored `Env = {"X":"1"}`) resolves
successfully, but afterwards the base's stored `Env` is
`{"X":"1","CLASSPATH":"/","JVM_ARGS":"-Dx=y","MAIN":"m"}`: the keys
`setDefaultEnv` added during the java base's own `GetBootCmd` write
through the shared map and survive the revert, so the mapping is not
key-for-key equal to its pre-resolution value, contradicting the
source's own comment at the revert site ("Revert environment to state
like it was read from meta/run.yaml"). -/
theorem java_base_env_not_restored :
    envAt confsJava "pkgJ" "run" = some (some [("X","1")])
    ∧ (resultConfs (getBootCmd rtInheritJava confsJava 3)).map
        (fun c => envAt c "pkgJ" "run")
      = some (some (some [("X","1"),("CLASSPATH","/"),("JVM_ARGS","-Dx=y"),("MAIN","m")]))
    ∧ some (some [("X","1"),("CLASSPATH","/"),("JVM_ARGS","-Dx=y"),("MAIN","m")])
      ≠ some (some [("X","1")]) := by
  refine ⟨by decide, by decide, by decide⟩

/-! ## C4 — ForceEnv's returned key list -/

/-- C4 fails on the code (code bug): `ForceEnv` seeds its result list
with `make([]string, 15)`, so updating the single existing key `A`
returns fifteen empty strings followed by `"A"` — not "exactly the keys
that were actually changed" as both the claim and the function's own
doc comment ("List of updated keys is returned") state.  The update
itself behaves as claimed: only the existing key `A` changes and no key
is added. -/
theorem forceEnv_updated_list_padded :
    ForceEnv (some [("A","1")]) (some [("A","2"),("NEW","9")])
      = (some [("A","2")], List.replicate 15 "" ++ ["A"])
    ∧ (List.replicate 15 "" ++ ["A"]) ≠ ["A"]
    ∧ "" ∈ List.replicate 15 "" ++ ["A"]
    ∧ ¬ ("" ∈ ["A"]) := by
  refine ⟨by decide, by decide, by decide, by decide⟩

end Capstan

namespace Capstan

/-! ## Validation lemmas -/

/-- The env loop of `CommonRuntime.Validate` finds no offender exactly
when every key and value is space-free. -/
theorem envSpace_find_none (e : Option EnvList) :
    ((e.getD []).find? (fun p => hasSpace p.1 || hasSpace p.2) = none)
      ↔ envNoSpace e = true := by
  simp only [envNoSpace, List.find?_eq_none, List.all_eq_true, Bool.or_eq_true,
    Bool.and_eq_true, Bool.not_eq_true', Bool.not_eq_true]
  constructor
  · intro h x hx
    have := h x hx
    constructor
    · cases hk : hasSpace x.1
      · rfl
      · exact absurd (Or.inl hk) this
    · cases hv : hasSpace x.2
      · rfl
      · exact absurd (Or.inr hv) this
  · intro h x hx hor
    have := h x hx
    rcases hor with hk | hv
    · rw [this.1] at hk; exact Bool.false_ne_true hk
    · rw [this.2] at hv; exact Bool.false_ne_true hv

/-- Success characterization of `CommonRuntime.Validate`: the common step
succeeds iff the env is space-free and, when validating an inheriting
configuration, `base` is non-empty and contains the `:` separator. -/
theorem commonValidate_none_iff (r : CommonRuntime) (inherit : Bool) :
    r.Validate inherit = none ↔
      (envNoSpace r.Env = true ∧
        (inherit = true → (r.Base ≠ "" ∧ containsChar r.Base ':' = true))) := by
  unfold CommonRuntime.Validate
  cases hf : (r.Env.getD []).find? (fun p => hasSpace p.1 || hasSpace p.2) with
  | some p =>
    have he : ¬ envNoSpace r.Env = true := by
      rw [← envSpace_find_none]
      simp [hf]
    simp [he]
  | none =>
    have he : envNoSpace r.Env = true := (envSpace_find_none r.Env).mp hf
    cases inherit with
    | false => simp [he]
    | true =>
      by_cases hb : r.Base = ""
      · simp [hb, he]
      · by_cases hc : containsChar r.Base ':'
        · simp [hb, hc, he]
        · simp [hb, hc, he]

/-! ## C5 — terminal validation -/

/-- C5, as stated, is false: a terminal native variant with its required
field set (`bootcmd = "/bin/app"`) still fails validation when an `Env`
key contains a space, so "once all required fields are set Validate
succeeds regardless of the content of the Env mapping" does not hold. -/
theorem terminal_validate_env_space_fails :
    nativeRuntimeValidate
      { common := { Env := some [("a b","1")], Base := "" }, BootCmd := "/bin/app" }
      = some "spaces not allowed in env key/value: 'a b':'1'"
    ∧ ("/bin/app" : String) ≠ "" := by
  refine ⟨by decide, by decide⟩

/-- C5 amended: for a terminal (non-inheriting) variant, `Validate`
succeeds iff every variant-specific required field is set *and* the
`Env` mapping passes the space check (no key or value contains a
space); for native the required field is `bootcmd`, for java the main
class and a non-nil classpath list. -/
theorem terminal_validate_iff (n : NativeRuntimeData) (j : JavaRuntimeData)
    (hn : n.common.Base = "") (hj : j.common.Base = "") :
    (nativeRuntimeValidate n = none
      ↔ (n.BootCmd ≠ "" ∧ envNoSpace n.common.Env = true))
    ∧ (javaRuntimeValidate j = none
      ↔ (j.Main ≠ "" ∧ j.Classpath ≠ none ∧ envNoSpace j.common.Env = true)) := by
  constructor
  · unfold nativeRuntimeValidate
    rw [if_pos hn]
    by_cases hbc : n.BootCmd = ""
    · simp [hbc]
    · rw [if_neg hbc, commonValidate_none_iff]
      simp [hbc]
  · unfold javaRuntimeValidate
    rw [if_pos hj]
    by_cases hm : j.Main = ""
    · simp [hm]
    · rw [if_neg hm]
      by_cases hcp : j.Classpath.isNone
      · rw [if_pos hcp]
        simp [Option.isNone_iff_eq_none.mp hcp]
      · rw [if_neg hcp, commonValidate_none_iff]
        have : j.Classpath ≠ none := by
          intro h
          exact hcp (Option.isNone_iff_eq_none.mpr h)
        simp [hm, this]

/-- Witness for `terminal_validate_iff`: a fully populated terminal
native variant and java variant both validate successfully. -/
theorem terminal_validate_iff_witness :
    nativeRuntimeValidate nativeAB = none
    ∧ javaRuntimeValidate
        { common := { Env := some [("X","1")], Base := "" },
          Xms := "", Xmx := "", Classpath := some ["/"],
          JvmArgs := [], Main := "m", Args := [] } = none := by
  constructor
  · exact (terminal_validate_iff nativeAB
      { common := { Env := some [("X","1")], Base := "" },
        Xms := "", Xmx := "", Classpath := some ["/"],
        JvmArgs := [], Main := "m", Args := [] } rfl rfl).1.mpr
      ⟨by decide, by decide⟩
  · exact (terminal_validate_iff nativeAB
      { common := { Env := some [("X","1")], Base := "" },
        Xms := "", Xmx := "", Classpath := some ["/"],
        JvmArgs := [], Main := "m", Args := [] } rfl rfl).2.mpr
      ⟨by decide, by decide, by decide⟩

end Capstan

namespace Capstan

/-! ## C6 — the env space check -/

/-- C6, as stated, is false: the common validation step can fail with a
space-free `Env` — an inheriting variant whose `base` lacks the `:`
separator fails common validation although no key or value contains a
space, so "fails iff some key or some value contains a space" does not
hold over all variants. -/
theorem common_validate_fails_without_space :
    nativeRuntimeValidate
      { common := { Env := some [("A","1")], Base := "nocolon" }, BootCmd := "/b" }
      = some "'base' must be in format <pkg_name>:<config_set>"
    ∧ envNoSpace (some [("A","1")]) = true := by
  refine ⟨by decide, by decide⟩

/-- C6 amended: a space in some key or value always makes the common
validation step fail; conversely the step fails *iff* a space is
present whenever the base check cannot interfere — for non-inheriting
validation, and for inheriting validation whose `base` is non-empty
and contains the `:` separator. -/
theorem env_space_validation (r : CommonRuntime) (inherit : Bool) :
    (envNoSpace r.Env = false → r.Validate inherit ≠ none)
    ∧ (inherit = false → (r.Validate inherit ≠ none ↔ envNoSpace r.Env = false))
    ∧ (r.Base ≠ "" → containsChar r.Base ':' = true →
        (r.Validate inherit ≠ none ↔ envNoSpace r.Env = false)) := by
  refine ⟨?_, ?_, ?_⟩
  · intro hsp hnone
    have := ((commonValidate_none_iff r inherit).mp hnone).1
    rw [hsp] at this
    exact absurd this (by decide)
  · intro hinh
    subst hinh
    constructor
    · intro h
      cases hsp : envNoSpace r.Env
      · rfl
      · exact absurd ((commonValidate_none_iff r false).mpr
          ⟨hsp, fun hx => absurd hx (by decide)⟩) h
    · intro h hnone
      have := ((commonValidate_none_iff r false).mp hnone).1
      rw [h] at this
      exact absurd this (by decide)
  · intro hb hc
    constructor
    · intro h
      cases hsp : envNoSpace r.Env
      · rfl
      · exact absurd ((commonValidate_none_iff r inherit).mpr
          ⟨hsp, fun _ => ⟨hb, hc⟩⟩) h
    · intro h hnone
      have := ((commonValidate_none_iff r inherit).mp hnone).1
      rw [h] at this
      exact absurd this (by decide)

/-- Witness for `env_space_validation`: with a space in a key, terminal
common validation fails; with the space-free map it succeeds. -/
theorem env_space_validation_witness :
    CommonRuntime.Validate { Env := some [("a b","1")], Base := "" } false ≠ none :=
  (env_space_validation { Env := some [("a b","1")], Base := "" } false).1 (by decide)

/-! ## C7 — inheriting validation skips required fields -/

/-- C7 confirmed: for inheriting variants (`Base ≠ ""`), `Validate`
ignores the variant-specific required fields — the result is unchanged
under any `bootcmd` (native) or any `main`/`classpath` (java) — and
`Validate` fails whenever `Base` lacks the `:` separator. -/
theorem inheriting_validate_skips_required
    (n : NativeRuntimeData) (j : JavaRuntimeData) (b m : String)
    (cp : Option (List String))
    (hn : n.common.Base ≠ "") (hj : j.common.Base ≠ "") :
    nativeRuntimeValidate { n with BootCmd := b } = nativeRuntimeValidate n
    ∧ javaRuntimeValidate { j with Main := m, Classpath := cp } = javaRuntimeValidate j
    ∧ (containsChar n.common.Base ':' = false → nativeRuntimeValidate n ≠ none)
    ∧ (containsChar j.common.Base ':' = false → javaRuntimeValidate j ≠ none) := by
  refine ⟨?_, ?_, ?_, ?_⟩
  · unfold nativeRuntimeValidate
    rw [if_neg hn, if_neg hn]
  · unfold javaRuntimeValidate
    rw [if_neg hj, if_neg hj]
  · intro hc hnone
    unfold nativeRuntimeValidate at hnone
    rw [if_neg hn] at hnone
    have := ((commonValidate_none_iff n.common true).mp hnone).2 rfl
    rw [this.2] at hc
    exact absurd hc (by decide)
  · intro hc hnone
    unfold javaRuntimeValidate at hnone
    rw [if_neg hj] at hnone
    have := ((commonValidate_none_iff j.common true).mp hnone).2 rfl
    rw [this.2] at hc
    exact absurd hc (by decide)

/-- Witness for `inheriting_validate_skips_required`: an inheriting
native variant's validation ignores `bootcmd`, and an inheriting
variant with a separator-free base fails validation. -/
theorem inheriting_validate_skips_required_witness :
    nativeRuntimeValidate { common := { Env := none, Base := "P1:run" }, BootCmd := "" }
      = nativeRuntimeValidate { common := { Env := none, Base := "P1:run" }, BootCmd := "/x" }
    ∧ nativeRuntimeValidate { common := { Env := none, Base := "nocolon" }, BootCmd := "/x" }
      ≠ none := by
  constructor
  · exact (inheriting_validate_skips_required
      { common := { Env := none, Base := "P1:run" }, BootCmd := "/x" }
      { common := { Env := none, Base := "P1:run" }, Xms := "", Xmx := "",
        Classpath := none, JvmArgs := [], Main := "", Args := [] }
      "" "" none (by decide) (by decide)).1
  · exact (inheriting_validate_skips_required
      { common := { Env := none, Base := "nocolon" }, BootCmd := "/x" }
      { common := { Env := none, Base := "P1:run" }, Xms := "", Xmx := "",
        Classpath := none, JvmArgs := [], Main := "", Args := [] }
      "" "" none (by decide) (by decide)).2.2.1 (by decide)

end Capstan

namespace Capstan

/-! ## C8 — configuration-set selection

The diagnostic strings list every available configuration-set name; the
following lemmas make that literal: each name occurs as a contiguous
substring (infix of the character list) of the message. -/

/-- Every intermediate accumulator and every remaining element is an
infix of the result of `String.intercalate.go`. -/
theorem intercalate_go_pieces (sep : String) :
    ∀ (as : List String) (acc : String),
      (acc.data <:+: (String.intercalate.go acc sep as).data)
      ∧ ∀ x ∈ as, x.data <:+: (String.intercalate.go acc sep as).data := by
  intro as
  induction as with
  | nil =>
    intro acc
    refine ⟨List.infix_refl _, ?_⟩
    intro x hx
    cases hx
  | cons a as ih =>
    intro acc
    have hgo : String.intercalate.go acc sep (a :: as)
        = String.intercalate.go (acc ++ sep ++ a) sep as := rfl
    have hacc : acc.data <:+: (acc ++ sep ++ a).data := by
      rw [String.data_append, String.data_append]
      exact (((List.prefix_append acc.data sep.data).trans
        (List.prefix_append (acc.data ++ sep.data) a.data))).isInfix
    have ha : a.data <:+: (acc ++ sep ++ a).data := by
      rw [String.data_append, String.data_append]
      exact (List.suffix_append (acc.data ++ sep.data) a.data).isInfix
    refine ⟨?_, ?_⟩
    · rw [hgo]
      exact hacc.trans (ih (acc ++ sep ++ a)).1
    · intro x hx
      rw [hgo]
      cases hx with
      | head => exact ha.trans (ih (acc ++ sep ++ a)).1
      | tail _ h => exact (ih (acc ++ sep ++ a)).2 x h

/-- Every member of a list is an infix of the list's intercalation. -/
theorem mem_infix_intercalate (sep x : String) (l : List String) (hx : x ∈ l) :
    x.data <:+: (String.intercalate sep l).data := by
  cases l with
  | nil => cases hx
  | cons a as =>
    show x.data <:+: (String.intercalate.go a sep as).data
    cases hx with
    | head => exact (intercalate_go_pieces sep as x).1
    | tail _ h => exact (intercalate_go_pieces sep as a).2 x h

/-- Every configuration-set name occurs inside the `availableNames`
diagnostic string. -/
theorem mem_infix_availableNames (m : List (String × Runtime)) (x : String)
    (hx : x ∈ keysOfMap m) :
    x.data <:+: (availableNamesStr m).data := by
  unfold availableNamesStr
  rw [String.data_append, String.data_append]
  exact (mem_infix_intercalate "', '" x (keysOfMap m) hx).trans
    ⟨"['".data, "']".data, by simp⟩

/-- C8 confirmed: selecting a configuration set by name returns the set
of that name when it exists; fails with the not-found error (listing the
available names) when it does not; with no name and exactly one set,
returns that set; with no name and more than one set, fails with the
ambiguity error; and both error messages contain every available
configuration-set name as a substring. -/
theorem selectConfigSet_selection_rules (r : CmdConfig) (name k : String) (rt : Runtime) :
    (name ≠ "" → r.ConfigSets.lookup name = some rt →
      selectConfigSetByName r name = .ok rt)
    ∧ (name ≠ "" → r.ConfigSets.lookup name = none →
      selectConfigSetByName r name = .error (notFoundMsg name r.ConfigSets))
    ∧ (r.ConfigSets = [(k, rt)] → selectConfigSetByName r "" = .ok rt)
    ∧ (2 ≤ r.ConfigSets.length →
      selectConfigSetByName r "" = .error (ambiguousMsg r.ConfigSets))
    ∧ (∀ x ∈ keysOfMap r.ConfigSets, x.data <:+: (ambiguousMsg r.ConfigSets).data)
    ∧ (∀ x ∈ keysOfMap r.ConfigSets, x.data <:+: (notFoundMsg name r.ConfigSets).data) := by
  refine ⟨?_, ?_, ?_, ?_, ?_, ?_⟩
  · intro h1 h2
    unfold selectConfigSetByName
    rw [if_neg h1, h2]
  · intro h1 h2
    unfold selectConfigSetByName
    rw [if_neg h1, h2]
  · intro h
    unfold selectConfigSetByName
    rw [if_pos rfl, h]
  · intro h
    unfold selectConfigSetByName
    rw [if_pos rfl]
    rcases hcs : r.ConfigSets with _ | ⟨x, _ | ⟨y, rest⟩⟩
    · rfl
    · rw [hcs] at h
      simp at h
    · rfl
  · intro x hx
    exact (mem_infix_availableNames r.ConfigSets x hx).trans
      ⟨("Could not select which configuration set to run:\n" ++
        "Neither --runconfig <name> is provided, nor config_set_default is set in meta/run.yaml\n" ++
        "Available names: ").data, [], by simp [ambiguousMsg]⟩
  · intro x hx
    exact (mem_infix_availableNames r.ConfigSets x hx).trans
      ⟨("Could not select which configuration set to run:\n" ++
        "Configuration set name '" ++ name ++ "' not one of ").data, [], by simp [notFoundMsg]⟩

/-- Witness for `selectConfigSet_selection_rules`: implicit selection of
the unique set, ambiguity over two sets, and lookup by explicit name. -/
theorem selectConfigSet_selection_rules_witness :
    selectConfigSetByName cfgJdk ""
      = .ok (.native { common := { Env := none, Base := "" }, BootCmd := "java.so" })
    ∧ selectConfigSetByName cfgTwo "" = .error (ambiguousMsg cfgTwo.ConfigSets)
    ∧ selectConfigSetByName cfgTwo "one" = .ok (.native nativeAB) := by
  refine ⟨?_, ?_, ?_⟩
  · exact (selectConfigSet_selection_rules cfgJdk "" "java"
      (.native { common := { Env := none, Base := "" }, BootCmd := "java.so" })).2.2.1 rfl
  · exact (selectConfigSet_selection_rules cfgTwo "" "x" (.native nativeAB)).2.2.2.1
      (by decide)
  · exact (selectConfigSet_selection_rules cfgTwo "one" "x" (.native nativeAB)).1
      (by decide) (by decide)

end Capstan

namespace Capstan

/-! ## C9 — the java runtime always takes the inheriting path -/

/-- C9 confirmed: `javaRuntime.GetBootCmd` overwrites the receiver
copy's `Base` with `"openjdk8-zulu-compact1:java"` before building the
command, so the result never depends on the manifest-declared `Base`,
and boot-command generation fails with the unresolved-reference error
whenever the registry has no (non-nil) package
`openjdk8-zulu-compact1`, or that package has no configuration set
`java` — even when every java required field is set. -/
theorem java_getBootCmd_forces_inherit (j : JavaRuntimeData) (confs : CmdConfs)
    (fuel : Nat) (b : String) :
    (getBootCmd (.java { j with common := { j.common with Base := b } }) confs (fuel + 1)
      = getBootCmd (.java j) confs (fuel + 1))
    ∧ (confs.lookup "openjdk8-zulu-compact1" = none ∨
        confs.lookup "openjdk8-zulu-compact1" = some none →
        getBootCmd (.java j) confs (fuel + 1)
          = .err "Failed to inherit from 'openjdk8-zulu-compact1': package not included or has no meta/run.yaml")
    ∧ (∀ cfg, confs.lookup "openjdk8-zulu-compact1" = some (some cfg) →
        cfg.ConfigSets.lookup "java" = none →
        getBootCmd (.java j) confs (fuel + 1)
          = .err "Failed to inherit 'openjdk8-zulu-compact1:java': config_set does not exist") := by
  have hsplit : splitN2 "openjdk8-zulu-compact1:java"
      = ["openjdk8-zulu-compact1", "java"] := by decide
  have hne : ("openjdk8-zulu-compact1:java" : String) ≠ "" := by decide
  refine ⟨rfl, ?_, ?_⟩
  · intro h
    simp only [getBootCmd, buildBootCmdGo, inheritBootCmdGo, hsplit, if_pos hne]
    rcases h with h | h <;> simp only [h] <;> rfl
  · intro cfg h1 h2
    simp only [getBootCmd, buildBootCmdGo, inheritBootCmdGo, hsplit, if_pos hne, h1, h2]
    rfl

/-- Witness for `java_getBootCmd_forces_inherit`: a fully populated
terminal java configuration fails against the empty registry. -/
theorem java_getBootCmd_forces_inherit_witness :
    getBootCmd (.java javaSolo) [] 1
      = .err "Failed to inherit from 'openjdk8-zulu-compact1': package not included or has no meta/run.yaml" :=
  (java_getBootCmd_forces_inherit javaSolo [] 0 "").2.1 (Or.inl rfl)

end Capstan

namespace Capstan

/-! ## C10 — the split of `base` and the panic on a malformed one -/

/-- If a character list contains `:` then `splitFirstAux` finds a split
point, whatever the accumulator. -/
theorem splitFirstAux_isSome_of_any :
    ∀ (l : List Char) (acc : List Char), l.any (fun x => x = ':') = true →
      ∃ p, splitFirstAux l acc = some p := by
  intro l
  induction l with
  | nil =>
    intro acc h0
    simp at h0
  | cons c rest ih =>
    intro acc h0
    unfold splitFirstAux
    by_cases hc : c = ':'
    · rw [if_pos hc]
      exact ⟨_, rfl⟩
    · rw [if_neg hc]
      apply ih
      rw [List.any_cons] at h0
      rcases Bool.or_eq_true_iff.mp h0 with h0 | h0
      · exact absurd (of_decide_eq_true h0) hc
      · exact h0

/-- If a character list has no `:` then `splitFirstAux` finds nothing. -/
theorem splitFirstAux_none_of_not_any :
    ∀ (l : List Char) (acc : List Char), l.any (fun x => x = ':') = false →
      splitFirstAux l acc = none := by
  intro l
  induction l with
  | nil =>
    intro acc _
    rfl
  | cons c rest ih =>
    intro acc h0
    rw [List.any_cons] at h0
    have h12 := Bool.or_eq_false_iff.mp h0
    unfold splitFirstAux
    rw [if_neg (of_decide_eq_false h12.1)]
    exact ih _ h12.2

/-- `strings.SplitN(s, ":", 2)` yields exactly two pieces when `s`
contains a colon. -/
theorem splitN2_of_contains (s : String) (h : containsChar s ':' = true) :
    ∃ a b, splitN2 s = [a, b] := by
  obtain ⟨p, hp⟩ := splitFirstAux_isSome_of_any s.data [] h
  unfold splitN2
  rw [hp]
  exact ⟨_, _, rfl⟩

/-- `strings.SplitN(s, ":", 2)` yields a single piece when `s` contains
no colon. -/
theorem splitN2_of_not_contains (s : String) (h : containsChar s ':' = false) :
    splitN2 s = [s] := by
  unfold splitN2
  rw [splitFirstAux_none_of_not_any s.data [] h]

/-- Replacing the environment leaves the well-formedness of `base`
untouched. -/
theorem wfRt_withEnv (rt : Runtime) (e : Option EnvList) :
    (rt.withEnv e).wfRt = rt.wfRt := by
  cases rt <;> rfl

/-- A package config looked up in a base-well-formed registry is itself
base-well-formed. -/
theorem wfConfs_lookup (confs : CmdConfs) (p : String) (cfg : CmdConfig)
    (h : wfConfs confs = true) (hl : confs.lookup p = some (some cfg)) :
    wfCfg cfg = true := by
  induction confs with
  | nil => simp [List.lookup] at hl
  | cons head tail ih =>
    obtain ⟨k, v⟩ := head
    unfold wfConfs at h
    rw [List.all_cons, Bool.and_eq_true] at h
    cases hpk : p == k with
    | true =>
      simp only [List.lookup, hpk, Option.some.injEq] at hl
      subst hl
      exact h.1
    | false =>
      simp only [List.lookup, hpk] at hl
      exact ih h.2 hl

/-- A runtime looked up among base-well-formed configuration sets has a
well-formed `base`. -/
theorem all_wfRt_lookup (l : List (String × Runtime)) (cs : String) (rt : Runtime)
    (h : l.all (fun p => p.2.wfRt) = true) (hl : l.lookup cs = some rt) :
    rt.wfRt = true := by
  induction l with
  | nil => simp [List.lookup] at hl
  | cons head tail ih =>
    obtain ⟨k, v⟩ := head
    rw [List.all_cons, Bool.and_eq_true] at h
    cases hpk : cs == k with
    | true =>
      simp only [List.lookup, hpk, Option.some.injEq] at hl
      subst hl
      exact h.1
    | false =>
      simp only [List.lookup, hpk] at hl
      exact ih h.2 hl

/-- Writing a base-well-formed runtime into the registry preserves the
registry's base-well-formedness (only `Env` fields ever change during
resolution). -/
theorem wfConfs_update (confs : CmdConfs) (p c : String) (rt : Runtime)
    (h : wfConfs confs = true) (hrt : rt.wfRt = true) :
    wfConfs (updateConfigSet confs p c rt) = true := by
  unfold wfConfs updateConfigSet at *
  rw [List.all_eq_true] at *
  intro x hx
  rw [List.mem_map] at hx
  obtain ⟨y, hy, rfl⟩ := hx
  have hfy := h y hy
  by_cases hp : y.1 = p
  · rw [if_pos hp]
    cases hv : y.2 with
    | none => simp
    | some cfg =>
      rw [hv] at hfy
      simp only [Option.map_some']
      show wfCfg _ = true
      unfold wfCfg at *
      rw [List.all_eq_true] at *
      intro z hz
      rw [List.mem_map] at hz
      obtain ⟨w, hw, rfl⟩ := hz
      by_cases hc : w.1 = c
      · rw [if_pos hc]
        exact hrt
      · rw [if_neg hc]
        exact hfy w hw
  · rw [if_neg hp]
    exact hfy

/-- `inheritBootCmd` never panics when its own `base` contains `:` and
every runtime in the registry has a well-formed `base`. -/
theorem inheritBootCmdGo_no_panic
    (recur : Runtime → CmdConfs → GoResult (String × Option EnvList × CmdConfs))
    (hrec : ∀ rt' confs', rt'.wfRt = true → wfConfs confs' = true →
       (recur rt' confs').isPanic = false)
    (r : CommonRuntime) (confs : CmdConfs)
    (hr : containsChar r.Base ':' = true) (hconfs : wfConfs confs = true) :
    (inheritBootCmdGo recur r confs).isPanic = false := by
  obtain ⟨a, b, hsplit⟩ := splitN2_of_contains r.Base hr
  unfold inheritBootCmdGo
  simp only [hsplit]
  cases hl : confs.lookup a with
  | none => rfl
  | some ocfg =>
    cases ocfg with
    | none => rfl
    | some cfg =>
      cases hcs : cfg.ConfigSets.lookup b with
      | none => simp only [hcs, GoResult.isPanic]
      | some original =>
        have hcfg : wfCfg cfg = true := wfConfs_lookup confs a cfg hconfs hl
        have horig : original.wfRt = true := by
          unfold wfCfg at hcfg
          exact all_wfRt_lookup cfg.ConfigSets b original hcfg hcs
        have h1 : (original.withEnv (ForceEnv original.GetEnv r.Env).1).wfRt = true := by
          rw [wfRt_withEnv]
          exact horig
        have hconfs1 : wfConfs (updateConfigSet confs a b
            (original.withEnv (ForceEnv original.GetEnv r.Env).1)) = true :=
          wfConfs_update confs a b _ hconfs h1
        have hnp := hrec _ _ h1 hconfs1
        simp only [hcs]
        cases hres : recur (original.withEnv (ForceEnv original.GetEnv r.Env).1)
            (updateConfigSet confs a b
              (original.withEnv (ForceEnv original.GetEnv r.Env).1)) with
        | ok v =>
          obtain ⟨bootCmd, sharedAfter, confs2⟩ := v
          rfl
        | err e => rfl
        | panic m =>
          rw [hres] at hnp
          simp [GoResult.isPanic] at hnp
        | nofuel => rfl

/-- `BuildBootCmd` never panics for a well-formed `base` over a
base-well-formed registry. -/
theorem buildBootCmdGo_no_panic
    (recur : Runtime → CmdConfs → GoResult (String × Option EnvList × CmdConfs))
    (hrec : ∀ rt' confs', rt'.wfRt = true → wfConfs confs' = true →
       (recur rt' confs').isPanic = false)
    (r : CommonRuntime) (bootCmd : String) (confs : CmdConfs)
    (hr : wfBase r.Base = true) (hconfs : wfConfs confs = true) :
    (buildBootCmdGo recur r bootCmd confs).isPanic = false := by
  unfold buildBootCmdGo
  by_cases hb : r.Base = ""
  · rw [if_neg (not_not_intro hb)]
    rfl
  · rw [if_pos hb]
    apply inheritBootCmdGo_no_panic recur hrec r confs ?_ hconfs
    unfold wfBase at hr
    rcases Bool.or_eq_true_iff.mp hr with h | h
    · exact absurd (eq_of_beq h) hb
    · exact h

/-- `GetBootCmd` never panics, at any fuel, for a variant with a
well-formed `base` over a base-well-formed registry. -/
theorem getBootCmd_no_panic :
    ∀ (fuel : Nat) (rt : Runtime) (confs : CmdConfs),
      rt.wfRt = true → wfConfs confs = true →
      (getBootCmd rt confs fuel).isPanic = false := by
  intro fuel
  induction fuel with
  | zero =>
    intro rt confs _ _
    rfl
  | succ fuel ih =>
    intro rt confs hrt hconfs
    cases rt with
    | native n =>
      have hb := buildBootCmdGo_no_panic (fun rt' confs' => getBootCmd rt' confs' fuel)
        (fun rt' confs' h1 h2 => ih rt' confs' h1 h2)
        n.common n.BootCmd confs hrt hconfs
      simp only [getBootCmd]
      cases hres : buildBootCmdGo (fun rt' confs' => getBootCmd rt' confs' fuel)
          n.common n.BootCmd confs with
      | ok v =>
        obtain ⟨s, confs'⟩ := v
        rfl
      | err e => rfl
      | panic m =>
        rw [hres] at hb
        simp [GoResult.isPanic] at hb
      | nofuel => rfl
    | java j =>
      have hb := buildBootCmdGo_no_panic (fun rt' confs' => getBootCmd rt' confs' fuel)
        (fun rt' confs' h1 h2 => ih rt' confs' h1 h2)
        { Env := some (setDefaultEnvAux (j.common.Env.getD [])
            [("XMS", j.Xms), ("XMX", j.Xmx),
             ("CLASSPATH", String.intercalate ":" (j.Classpath.getD [])),
             ("JVM_ARGS", concatJvmArgs j.JvmArgs), ("MAIN", j.Main),
             ("ARGS", String.intercalate " " j.Args)]),
          Base := "openjdk8-zulu-compact1:java" } "" confs
        (show wfBase "openjdk8-zulu-compact1:java" = true by decide) hconfs
      simp only [getBootCmd]
      cases hres : buildBootCmdGo (fun rt' confs' => getBootCmd rt' confs' fuel)
          { Env := some (setDefaultEnvAux (j.common.Env.getD [])
              [("XMS", j.Xms), ("XMX", j.Xmx),
               ("CLASSPATH", String.intercalate ":" (j.Classpath.getD [])),
               ("JVM_ARGS", concatJvmArgs j.JvmArgs), ("MAIN", j.Main),
               ("ARGS", String.intercalate " " j.Args)]),
            Base := "openjdk8-zulu-compact1:java" } "" confs with
      | ok v =>
        obtain ⟨s, confs'⟩ := v
        rfl
      | err e => rfl
      | panic m =>
        rw [hres] at hb
        simp [GoResult.isPanic] at hb
      | nofuel => rfl

/-- C10 confirmed: when `base` contains the `:` separator (the condition
`Validate` enforces), `SplitN` yields two pieces so the `parts[1]`
access is in bounds, and boot-command generation over a registry whose
runtimes all satisfy that condition never reaches the panic outcome;
conversely, calling `BuildBootCmd` without prior validation on a
non-empty `base` lacking `:` panics (index out of range) instead of
returning an error. -/
theorem inherit_base_split_safety (r : CommonRuntime) (bootCmd : String)
    (confs : CmdConfs) (fuel : Nat) (rt : Runtime) :
    (containsChar r.Base ':' = true → (splitN2 r.Base).length = 2)
    ∧ (rt.wfRt = true → wfConfs confs = true →
        (getBootCmd rt confs fuel).isPanic = false)
    ∧ (r.Base ≠ "" → containsChar r.Base ':' = false →
        BuildBootCmd r bootCmd confs fuel
          = .panic "runtime error: index out of range") := by
  refine ⟨?_, getBootCmd_no_panic fuel rt confs, ?_⟩
  · intro h
    obtain ⟨a, b, hs⟩ := splitN2_of_contains r.Base h
    rw [hs]
    rfl
  · intro hne hnc
    unfold BuildBootCmd buildBootCmdGo
    rw [if_pos hne]
    unfold inheritBootCmdGo
    rw [splitN2_of_not_contains r.Base hnc]

/-- Witness for `inherit_base_split_safety`: the end-to-end scenario's
`base` splits into two pieces and resolves without panic; an unvalidated
separator-free `base` panics. -/
theorem inherit_base_split_safety_witness :
    (splitN2 "P1:run").length = 2
    ∧ (getBootCmd rtP2run confsP1 2).isPanic = false
    ∧ BuildBootCmd { Env := none, Base := "nocolon" } "" [] 1
      = .panic "runtime error: index out of range" := by
  refine ⟨?_, ?_, ?_⟩
  · exact (inherit_base_split_safety { Env := none, Base := "P1:run" } "" [] 1 rtP2run).1
      (by decide)
  · exact (inherit_base_split_safety { Env := none, Base := "P1:run" } "" confsP1 2 rtP2run).2.1
      (by decide) (by decide)
  · exact (inherit_base_split_safety { Env := none, Base := "nocolon" } "" [] 1 rtP2run).2.2
      (by decide) (by decide)

end Capstan
